import Mathlib

/-!
# PowerCost-Tracker: verification of the power-telemetry engine

Shallow embedding of the Rust sources under `src/src-tauri/src/` into Lean.
`f64` arithmetic is modelled over `ℚ`; `u64` counters over `ℕ` (with `ℤ`
where signedness of a difference matters); timestamps are milliseconds as
`ℕ`.  The one operation with no exact rational counterpart, `f64::sqrt`
(used only inside the baseline-confidence formula), is abstracted as an
explicit function parameter `sqrtFn`.
-/

namespace PowerCost

/-- Rust `f64::clamp(lo, hi)` (defined for `lo ≤ hi`): `if x < lo { lo }
else if x > hi { hi } else { x }`. -/
def fclamp (x lo hi : ℚ) : ℚ :=
  if x < lo then lo else if x > hi then hi else x

/-! ## Energy-counter backend (`hardware/linux.rs`, `RaplMonitor`)

`get_power` reads the cumulative energy counter (µJ), computes the delta
against `last_energy` with wraparound against `max_energy`, and divides by
the elapsed time (then by 10^6 to convert µW to W).  The delta is a `u64`
computation; we model its mathematical value in `ℤ` (exact whenever the
`u64` subtractions do not underflow, i.e. when `last_energy ≤ max_energy`
in the wraparound branch). -/

/-- Rust `energy_diff` of `RaplMonitor::get_power` (linux.rs:103-107). -/
def rapl_energy_diff (max_energy last_energy current_energy : ℕ) : ℤ :=
  if current_energy ≥ last_energy then
    (current_energy : ℤ) - (last_energy : ℤ)
  else
    ((max_energy : ℤ) - (last_energy : ℤ)) + (current_energy : ℤ)

/-- Rust `power_watts` of `RaplMonitor::get_power` (linux.rs:113-117):
`energy_diff / time_diff / 1_000_000` when `time_diff > 0`, else `0`.
`time_diff` is the elapsed time in seconds. -/
def rapl_get_power (max_energy last_energy current_energy : ℕ)
    (time_diff : ℚ) : ℚ :=
  if time_diff > 0 then
    (rapl_energy_diff max_energy last_energy current_energy : ℚ) / time_diff / 1000000
  else 0

/-! ## Baseline detector (`hardware/baseline.rs`) -/

/-- Rust `core::BaselineDetection` (types.rs:242-246). -/
structure BaselineDetection where
  detected_watts : ℚ
  sample_count : ℕ
  confidence : ℚ
  deriving Repr, DecidableEq

/-- Rust `BaselineDetector` state (baseline.rs:17-26).  The `VecDeque` window is
a list, front first. -/
structure BaselineDetector where
  samples : List ℚ
  max_samples : ℕ
  manual_baseline : Option ℚ
  last_detected : Option ℚ
  deriving Repr, DecidableEq

namespace BaselineDetector

/-- Rust `DEFAULT_SAMPLE_WINDOW` (baseline.rs:8). -/
def DEFAULT_SAMPLE_WINDOW : ℕ := 60

/-- Rust `BaselineDetector::new` (baseline.rs:30-37). -/
def new : BaselineDetector :=
  { samples := [], max_samples := DEFAULT_SAMPLE_WINDOW,
    manual_baseline := none, last_detected := none }

/-- Rust `BaselineDetector::with_window_size` (baseline.rs:40-47). -/
def with_window_size (size : ℕ) : BaselineDetector :=
  { samples := [], max_samples := size,
    manual_baseline := none, last_detected := none }

/-- Rust `BaselineDetector::add_sample` (baseline.rs:50-55): pop the front when
at (or beyond) capacity, then push at the back. -/
def add_sample (d : BaselineDetector) (power_watts : ℚ) : BaselineDetector :=
  if d.samples.length ≥ d.max_samples then
    { d with samples := d.samples.tail ++ [power_watts] }
  else
    { d with samples := d.samples ++ [power_watts] }

/-- Rust `BaselineDetector::set_manual_baseline` (baseline.rs:58-60). -/
def set_manual_baseline (d : BaselineDetector) (watts : ℚ) : BaselineDetector :=
  { d with manual_baseline := some watts }

/-- Rust `BaselineDetector::clear_manual_baseline` (baseline.rs:63-65). -/
def clear_manual_baseline (d : BaselineDetector) : BaselineDetector :=
  { d with manual_baseline := none }

/-- Rust `BaselineDetector::get_baseline` (baseline.rs:70-72):
`manual_baseline.or(last_detected)`. -/
def get_baseline (d : BaselineDetector) : Option ℚ :=
  d.manual_baseline.or d.last_detected

/-- Rust `BaselineDetector::sample_count` (baseline.rs:80-82). -/
def sample_count (d : BaselineDetector) : ℕ := d.samples.length

/-- Rust `BaselineDetector::calculate_variance` (baseline.rs:118-129): the
population variance of the slice, then `f64::sqrt` — abstracted as
`sqrtFn` — so the function returns the standard deviation. -/
def calculate_variance (sqrtFn : ℚ → ℚ) (sorted : List ℚ) : ℚ :=
  if sorted.isEmpty then 0
  else
    let mean : ℚ := sorted.sum / (sorted.length : ℚ)
    let variance : ℚ :=
      ((sorted.map (fun x => (x - mean) ^ 2)).sum) / (sorted.length : ℚ)
    sqrtFn variance

/-- Rust `BASELINE_PERCENTILE` (baseline.rs:9). -/
def BASELINE_PERCENTILE : ℚ := 5 / 100

/-- The pure value computed by `BaselineDetector::detect_baseline`
(baseline.rs:88-115) from the current window and capacity: `None` below 10
samples, else the 5th-percentile entry of a sorted copy plus a
sample-count/variance confidence, clamped to `[0,1]`. -/
def detect_baseline (sqrtFn : ℚ → ℚ) (samples : List ℚ) (max_samples : ℕ) :
    Option BaselineDetection :=
  if samples.length < 10 then none
  else
    let sorted := samples.insertionSort (· ≤ ·)
    let index := (((sorted.length : ℚ)) * BASELINE_PERCENTILE).floor.toNat
    let baseline := (sorted[index]?).getD (sorted.headD 0)
    let sample_ratio : ℚ := (samples.length : ℚ) / (max_samples : ℚ)
    let variance := calculate_variance sqrtFn sorted
    let variance_factor : ℚ := 1 / (1 + variance / 100)
    let confidence := fclamp (sample_ratio * variance_factor) 0 1
    some { detected_watts := baseline,
           sample_count := samples.length,
           confidence := confidence }

/-- Rust `BaselineDetector::calculate_surplus` (baseline.rs:137-145). -/
def calculate_surplus (d : BaselineDetector) (current_watts : ℚ) : ℚ × Bool :=
  match d.get_baseline with
  | some baseline =>
      let surplus := current_watts - baseline
      (max surplus 0, decide (surplus > 0))
  | none => (0, false)

/-- Rust `BaselineDetector::calculate_surplus_wh` (baseline.rs:147-150). -/
def calculate_surplus_wh (d : BaselineDetector) (power_watts duration_hours : ℚ) : ℚ :=
  (d.calculate_surplus power_watts).1 * duration_hours

/-- Rust `BaselineDetector::reset` (baseline.rs:153-156): clears the window and
the last detected value, leaves `manual_baseline` alone. -/
def reset (d : BaselineDetector) : BaselineDetector :=
  { d with samples := [], last_detected := none }

end BaselineDetector

/-! ## TTL cache (`hardware/windows.rs`, `CachedValue`) -/

/-- Rust `CachedValue<T>` (windows.rs:130-134): a value plus its capture
instant (milliseconds). -/
structure CachedValue (α : Type) where
  value : α
  timestamp : ℕ
  deriving Repr

namespace CachedValue

/-- Rust `CachedValue::get` (windows.rs:144-150): return the value while the
elapsed time (`now - timestamp`, in ms) is strictly below `max_age_ms`. -/
def get {α : Type} (c : CachedValue α) (now max_age_ms : ℕ) : Option α :=
  if now - c.timestamp < max_age_ms then some c.value else none

end CachedValue

/-! ## Core types (`core/error.rs`, `core/types.rs`) -/

/-- Rust `core::Error` (error.rs:7-28).  Payloads that carry foreign types
(`rusqlite::Error`, `std::io::Error`) are reduced to their message. -/
inductive Error where
  | config : String → Error
  | database : String → Error
  | powerMonitor : String → Error
  | ioErr : String → Error
  | serialization : String → Error
  | hardwareNotSupported : String → Error
  | permissionDenied : String → Error
  deriving Repr, DecidableEq

/-- Rust `core::Result<T>` (error.rs:31). -/
abbrev PcResult (α : Type) : Type := Except Error α

/-- Rust `core::PowerReading` (types.rs:9-20); the `HashMap` component
breakdown is an association list. -/
structure PowerReading where
  power_watts : ℚ
  timestamp : ℤ
  source : String
  components : Option (List (String × ℚ))
  is_estimated : Bool
  deriving Repr, DecidableEq

namespace PowerReading

/-- Rust `PowerReading::new` (types.rs:23-31); the wall-clock timestamp is an
explicit argument. -/
def new (power_watts : ℚ) (source : String) (is_estimated : Bool)
    (now : ℤ) : PowerReading :=
  { power_watts := power_watts, timestamp := now, source := source,
    components := none, is_estimated := is_estimated }

/-- Rust `PowerReading::with_components` (types.rs:34-37). -/
def with_components (r : PowerReading) (components : List (String × ℚ)) :
    PowerReading :=
  { r with components := some components }

end PowerReading

/-! ## TDP estimator (`hardware/estimator.rs`) -/

/-- Rust `TdpProfile` (estimator.rs:57-65). -/
structure TdpProfile where
  tdp : ℚ
  idle_ratio : ℚ
  max_power_ratio : ℚ
  deriving Repr, DecidableEq

namespace TdpProfile

/-- Rust `TdpProfile::new` (estimator.rs:68-74). -/
def mk' (tdp idle_ratio max_power_ratio : ℚ) : TdpProfile :=
  { tdp := tdp, idle_ratio := idle_ratio, max_power_ratio := max_power_ratio }

/-- Rust `TdpProfile::idle_power` (estimator.rs:77-79): `tdp * idle_ratio`. -/
def idle_power (p : TdpProfile) : ℚ := p.tdp * p.idle_ratio

/-- Rust `TdpProfile::max_power` (estimator.rs:82-84): `tdp * max_power_ratio`. -/
def max_power (p : TdpProfile) : ℚ := p.tdp * p.max_power_ratio

end TdpProfile

/-- Core of `EstimationMonitor::calculate_estimated_power`
(estimator.rs:385-442), as a function of the effective idle/max power and
the per-core load fractions (`cpu_usage()/100` for each core).  Empty core
list returns `idle_power`; otherwise `load_factor = avg_load * (0.7 + 0.3
* active_ratio)` clamped to `[0,1]`, with a core active above the 5%
threshold, and `power = idle + load_factor * (max - idle)` clamped to
`[idle, max]`. -/
def calculate_estimated_power (idle_power max_power : ℚ) (loads : List ℚ) : ℚ :=
  if loads.isEmpty then idle_power
  else
    let total_cores : ℕ := loads.length
    let avg_load : ℚ := loads.sum / (total_cores : ℚ)
    let active_threshold : ℚ := 5 / 100
    let active_cores : ℕ := (loads.filter (fun load => load > active_threshold)).length
    let active_ratio : ℚ := (active_cores : ℚ) / (total_cores : ℚ)
    let load_factor := avg_load * (7/10 + 3/10 * active_ratio)
    let load_factor := fclamp load_factor 0 1
    let power := idle_power + load_factor * (max_power - idle_power)
    fclamp power idle_power max_power

/-- Rust `EstimationMonitor` state (estimator.rs:329-337): the detected profile
and laptop flag from `CpuSpecs`, the optional overrides, and the live
per-core load fractions delivered by `sysinfo`. -/
structure EstimationMonitor where
  profile : TdpProfile
  is_laptop : Bool
  idle_power_override : Option ℚ
  max_power_override : Option ℚ
  loads : List ℚ
  deriving Repr, DecidableEq

namespace EstimationMonitor

/-- Rust `EstimationMonitor::get_idle_power` (estimator.rs:366-369). -/
def get_idle_power (m : EstimationMonitor) : ℚ :=
  m.idle_power_override.getD m.profile.idle_power

/-- Rust `EstimationMonitor::get_max_power` (estimator.rs:372-375). -/
def get_max_power (m : EstimationMonitor) : ℚ :=
  m.max_power_override.getD m.profile.max_power

/-- Rust `EstimationMonitor::calculate_estimated_power` (estimator.rs:385-442). -/
def calcPower (m : EstimationMonitor) : ℚ :=
  calculate_estimated_power m.get_idle_power m.get_max_power m.loads

/-- Rust `EstimationMonitor::get_component_breakdown` (estimator.rs:445-461). -/
def get_component_breakdown (m : EstimationMonitor) : List (String × ℚ) :=
  let total_power := m.calcPower
  let cpu_ratio : ℚ := if m.is_laptop then 70/100 else 65/100
  let cpu_power := total_power * cpu_ratio
  let other_power := total_power - cpu_power
  [("cpu", cpu_power), ("other", other_power)]

/-- Rust `PowerSource::get_power_watts` for `EstimationMonitor`
(estimator.rs:471-473): always `Ok`. -/
def get_power_watts (m : EstimationMonitor) : PcResult ℚ :=
  Except.ok m.calcPower

/-- Rust `PowerSource::get_reading` for `EstimationMonitor`
(estimator.rs:475-480): always `Ok`. -/
def get_reading (m : EstimationMonitor) (now : ℤ) : PcResult PowerReading :=
  let power := m.calcPower
  let components := m.get_component_breakdown
  Except.ok ((PowerReading.new power "estimated" true now).with_components components)

end EstimationMonitor

/-! ## Monitor fast paths (`hardware/windows.rs`, `hardware/linux.rs`)

The fast-path capability returns `(power_watts, cpu_usage_percent,
gpu_usage_percent, gpu_power_watts)`.  The Windows monitor keeps TTL
caches; the Linux monitor queries NVML / AMD-sysfs live.  External
effects (the `sysinfo` CPU load, the NVML handle and the answers its
queries would return, the AMD sysfs reading, the inner power backend) are
passed in explicitly as snapshot parameters. -/

/-- Rust `GpuMetrics` (types.rs:151-166), the fields the fast paths touch. -/
structure GpuMetrics where
  name : String
  usage_percent : Option ℚ
  power_watts : Option ℚ
  deriving Repr, DecidableEq

/-- Rust `GpuInfo` (windows.rs:122-127). -/
structure GpuInfo where
  power_watts : ℚ
  name : String
  deriving Repr, DecidableEq

/-- The state of an NVML handle together with what its queries would
answer right now: `query_metrics` models `nvml_gpu::query_gpu_metrics`
and `query_power` models `nvml_gpu::query_gpu_power` (both may fail). -/
structure NvmlState where
  query_metrics : Option GpuMetrics
  query_power : Option (ℚ × String)
  deriving Repr, DecidableEq

namespace WmiMonitor

/-- Rust `FAST_PATH_CACHE_TTL_MS` (windows.rs:599). -/
def FAST_PATH_CACHE_TTL_MS : ℕ := 10000

/-- Rust `WmiMonitor::get_cached_gpu_data_for_fast_path` (windows.rs:596-631):
read GPU usage from `gpu_metrics_cache` and GPU power from `gpu_cache`,
each through `CachedValue::get` with the 10 s fast-path tolerance, never
issuing a query.  `now` is the current instant in ms. -/
def get_cached_gpu_data_for_fast_path
    (gpu_metrics_cache : Option (CachedValue (Option GpuMetrics)))
    (gpu_cache : Option (CachedValue (Option GpuInfo)))
    (now : ℕ) : Option ℚ × Option ℚ :=
  let gpu_usage :=
    match gpu_metrics_cache with
    | some cached =>
        match cached.get now FAST_PATH_CACHE_TTL_MS with
        | some metrics => metrics.bind (fun m => m.usage_percent)
        | none => none
    | none => none
  let gpu_power :=
    match gpu_cache with
    | some cached =>
        match cached.get now FAST_PATH_CACHE_TTL_MS with
        | some info => info.map (fun i => i.power_watts)
        | none => none
    | none => none
  (gpu_usage, gpu_power)

/-- Rust `WmiMonitor::calculate_cpu_power` (windows.rs:494-503):
`average_load` is a percentage. -/
def calculate_cpu_power (cpu_tdp_estimate average_load : ℚ) : ℚ :=
  let idle_ratio : ℚ := 15/100
  let load_factor := average_load / 100
  let idle_power := cpu_tdp_estimate * idle_ratio
  let active_power := cpu_tdp_estimate * (1 - idle_ratio)
  idle_power + load_factor * active_power

/-- Rust `WmiMonitor::estimate_base_power` (windows.rs:506-512). -/
def estimate_base_power (is_laptop : Bool) : ℚ :=
  if is_laptop then 10 else 30

/-- Rust `WmiMonitor::get_power_watts_fast_impl` (windows.rs:537-594): CPU
power from the live load, GPU usage/power exclusively from the two TTL
caches via `get_cached_gpu_data_for_fast_path`. -/
def get_power_watts_fast_impl
    (cpu_tdp_estimate : ℚ) (is_laptop : Bool) (average_load : ℚ)
    (gpu_metrics_cache : Option (CachedValue (Option GpuMetrics)))
    (gpu_cache : Option (CachedValue (Option GpuInfo)))
    (now : ℕ) : PcResult (ℚ × ℚ × Option ℚ × Option ℚ) :=
  let cpu_power := calculate_cpu_power cpu_tdp_estimate average_load
  let total_power := cpu_power
  let (gpu_usage, gpu_power_watts) :=
    get_cached_gpu_data_for_fast_path gpu_metrics_cache gpu_cache now
  let total_power :=
    match gpu_power_watts with
    | some power => total_power + power
    | none => total_power
  let total_power := total_power + estimate_base_power is_laptop
  Except.ok (total_power, average_load, gpu_usage, gpu_power_watts)

end WmiMonitor

namespace LinuxSystemMonitor

/-- Rust `LinuxSystemMonitor::get_gpu_power` (linux.rs:616-624): live NVML
power query first, then the AMD sysfs reading. -/
def get_gpu_power (nvml_state : Option NvmlState)
    (amd_sysfs : Option GpuMetrics) : Option ℚ :=
  match nvml_state with
  | some nvml =>
      match nvml.query_power with
      | some (power, _) => some power
      | none => amd_sysfs.bind (fun g => g.power_watts)
  | none => amd_sysfs.bind (fun g => g.power_watts)

/-- Rust `LinuxSystemMonitor::get_power_watts_fast` (linux.rs:834-848): inner
backend power, live CPU refresh, then a live `get_gpu_power` and a live
NVML metrics query for the usage — no cache is consulted. -/
def get_power_watts_fast (inner_power : PcResult ℚ)
    (cpu_usages : List ℚ) (nvml_state : Option NvmlState)
    (amd_sysfs : Option GpuMetrics) :
    PcResult (ℚ × ℚ × Option ℚ × Option ℚ) := do
  let power ← inner_power
  let cpu_usage := cpu_usages.sum / (max cpu_usages.length 1 : ℕ)
  let gpu_power := get_gpu_power nvml_state amd_sysfs
  let gpu_usage :=
    (nvml_state.bind (fun nvml => nvml.query_metrics)).bind
      (fun m => m.usage_percent)
  return (power, cpu_usage, gpu_usage, gpu_power)

end LinuxSystemMonitor

/-! ## Helper lemmas -/

/-- Clamping into a nonempty interval lands in the interval. -/
lemma fclamp_mem (x lo hi : ℚ) (h : lo ≤ hi) :
    lo ≤ fclamp x lo hi ∧ fclamp x lo hi ≤ hi := by
  unfold fclamp
  split_ifs with h1 h2
  · exact ⟨le_refl _, h⟩
  · exact ⟨h, le_refl _⟩
  · exact ⟨le_of_not_lt h1, le_of_not_lt h2⟩

/-- The estimated power always lands between the effective idle and max
power, whatever the per-core loads. -/
lemma calculate_estimated_power_mem (idle_power max_power : ℚ)
    (loads : List ℚ) (h : idle_power ≤ max_power) :
    idle_power ≤ calculate_estimated_power idle_power max_power loads ∧
      calculate_estimated_power idle_power max_power loads ≤ max_power := by
  unfold calculate_estimated_power
  by_cases hl : loads.isEmpty
  · simp [hl, h]
  · simp only [hl, if_false]
    exact fclamp_mem _ _ _ h

/-- In a `≤`-sorted rational list, if strictly more than `k` entries are
`≤ c`, then the entry at index `k` is `≤ c`. -/
lemma sorted_get_le_of_lt_countP {l : List ℚ} {c : ℚ}
    (hs : List.Sorted (· ≤ ·) l) :
    ∀ (k : ℕ) (hk : k < l.length),
      k < l.countP (fun x => decide (x ≤ c)) → l.get ⟨k, hk⟩ ≤ c := by
  induction l with
  | nil => intro k hk; simp at hk
  | cons x xs ih =>
      intro k hk hcount
      obtain ⟨hx, hxs⟩ := List.sorted_cons.mp hs
      by_cases hxc : x ≤ c
      · cases k with
        | zero => simpa using hxc
        | succ k =>
            have hcnt : (x :: xs).countP (fun x => decide (x ≤ c)) =
                xs.countP (fun x => decide (x ≤ c)) + 1 := by
              simp [List.countP_cons, hxc]
            have hk' : k < xs.length := by
              simpa [Nat.succ_lt_succ_iff] using hk
            have := ih hxs k hk' (by omega)
            simpa using this
      · exfalso
        have hzero : (x :: xs).countP (fun x => decide (x ≤ c)) = 0 := by
          rw [List.countP_eq_zero]
          intro y hy
          rcases List.mem_cons.mp hy with rfl | hy'
          · simpa using hxc
          · have : x ≤ y := hx y hy'
            simp only [decide_eq_true_eq]
            intro hyc
            exact hxc (le_trans this hyc)
        omega

/-- Population variance (and hence the `sqrtFn` image used as standard
deviation) is invariant under permutation of the sample list. -/
lemma calculate_variance_perm (sqrtFn : ℚ → ℚ) {l₁ l₂ : List ℚ}
    (hp : l₁.Perm l₂) :
    BaselineDetector.calculate_variance sqrtFn l₁ =
      BaselineDetector.calculate_variance sqrtFn l₂ := by
  have hlen := hp.length_eq
  have hsum : l₁.sum = l₂.sum := hp.sum_eq
  have hempty : l₁.isEmpty = l₂.isEmpty := by
    cases l₁ <;> cases l₂ <;> simp_all
  have hmap : ∀ m : ℚ, (l₁.map (fun x => (x - m) ^ 2)).sum =
      (l₂.map (fun x => (x - m) ^ 2)).sum := by
    intro m
    have h2 : (l₁.map (fun x => (x - m) ^ 2)).Perm
        (l₂.map (fun x => (x - m) ^ 2)) := hp.map _
    exact h2.sum_eq
  simp only [BaselineDetector.calculate_variance]
  rw [hempty, hlen, hsum, hmap]

/-- Folding `add_sample` never changes the configured capacity. -/
lemma foldl_add_sample_max_samples (d : BaselineDetector) (ws : List ℚ) :
    (ws.foldl BaselineDetector.add_sample d).max_samples = d.max_samples := by
  induction ws generalizing d with
  | nil => rfl
  | cons w ws ih =>
      rw [List.foldl_cons, ih]
      unfold BaselineDetector.add_sample
      split_ifs <;> rfl

/-- Starting from a fresh detector of capacity `cap ≥ 1`, after feeding the
sample list `ws` the window is exactly the last `min cap ws.length`
samples, in order. -/
lemma foldl_add_sample_samples (cap : ℕ) (hcap : 1 ≤ cap) (ws : List ℚ) :
    (ws.foldl BaselineDetector.add_sample
        (BaselineDetector.with_window_size cap)).samples =
      ws.drop (ws.length - cap) := by
  induction ws using List.reverseRecOn with
  | nil => simp [BaselineDetector.with_window_size]
  | append_singleton l w ih =>
      rw [List.foldl_append, List.foldl_cons, List.foldl_nil]
      have hms : (l.foldl BaselineDetector.add_sample
          (BaselineDetector.with_window_size cap)).max_samples = cap :=
        foldl_add_sample_max_samples _ l
      set d' := l.foldl BaselineDetector.add_sample
        (BaselineDetector.with_window_size cap) with hd'
      have hlen : d'.samples.length = l.length - (l.length - cap) := by
        rw [ih]; exact List.length_drop _ _
      unfold BaselineDetector.add_sample
      rw [hms, hlen]
      split_ifs with hge
      · show d'.samples.tail ++ [w] =
          (l ++ [w]).drop ((l ++ [w]).length - cap)
        have h1 : (l ++ [w]).length - cap = (l.length - cap) + 1 := by
          simp only [List.length_append, List.length_cons, List.length_nil]
          omega
        rw [ih, List.tail_drop, h1,
          List.drop_append_of_le_length (by omega)]
      · show d'.samples ++ [w] =
          (l ++ [w]).drop ((l ++ [w]).length - cap)
        have hd0 : l.length - cap = 0 := by omega
        have h1 : (l ++ [w]).length - cap = 0 := by
          simp only [List.length_append, List.length_cons, List.length_nil]
          omega
        rw [ih, hd0, h1, List.drop_zero, List.drop_zero]

/-! ## Claims -/

/-- C1: the energy-counter backend computes the delta as
`current − last` when `current ≥ last` and as `(max − last) + current`
otherwise, then divides by the elapsed time (and by 10^6, µJ → J); with
`max=1000, last=980, current=20` the delta is `40`, and whenever
`last ≤ max` the delta is never negative. -/
theorem rapl_power_delta_spec (max_energy last_energy current_energy : ℕ)
    (hle : last_energy ≤ max_energy) (t : ℚ) (ht : 0 < t) :
    (last_energy ≤ current_energy →
      rapl_energy_diff max_energy last_energy current_energy =
        (current_energy : ℤ) - (last_energy : ℤ)) ∧
    (current_energy < last_energy →
      rapl_energy_diff max_energy last_energy current_energy =
        ((max_energy : ℤ) - (last_energy : ℤ)) + (current_energy : ℤ)) ∧
    rapl_get_power max_energy last_energy current_energy t =
      (rapl_energy_diff max_energy last_energy current_energy : ℚ) / t / 1000000 ∧
    rapl_energy_diff 1000 980 20 = 40 ∧
    0 ≤ rapl_energy_diff max_energy last_energy current_energy := by
  refine ⟨?_, ?_, ?_, by decide, ?_⟩
  · intro h
    simp [rapl_energy_diff, h]
  · intro h
    simp [rapl_energy_diff, not_le.mpr h, le_of_lt h]
  · simp [rapl_get_power, ht]
  · unfold rapl_energy_diff
    split_ifs with h
    · have : (last_energy : ℤ) ≤ (current_energy : ℤ) := by exact_mod_cast h
      omega
    · have h1 : (last_energy : ℤ) ≤ (max_energy : ℤ) := by exact_mod_cast hle
      omega

/-- Closed instance of `rapl_power_delta_spec` at the documented
wraparound scenario. -/
theorem rapl_power_delta_spec_witness :
    (980 : ℕ) ≤ 1000 ∧ (0 : ℚ) < 1 ∧
      rapl_energy_diff 1000 980 20 = 40 ∧
      0 ≤ rapl_energy_diff 1000 980 20 :=
  ⟨by decide, by norm_num,
    (rapl_power_delta_spec 1000 980 20 (by decide) 1 (by norm_num)).2.2.2.1,
    (rapl_power_delta_spec 1000 980 20 (by decide) 1 (by norm_num)).2.2.2.2⟩

/-- C4: with a baseline `b` available, `calculate_surplus current` is
`(max 0 (current − b), current > b)` and `calculate_surplus_wh` scales the
surplus by the duration; with baseline `50` the documented examples hold. -/
theorem calculate_surplus_spec (d : BaselineDetector) (b current : ℚ)
    (hb : d.get_baseline = some b) :
    d.calculate_surplus current = (max 0 (current - b), decide (current > b)) ∧
    (∀ p h : ℚ, d.calculate_surplus_wh p h = max 0 (p - b) * h) ∧
    (BaselineDetector.new.set_manual_baseline 50).calculate_surplus 120 =
      (70, true) ∧
    (BaselineDetector.new.set_manual_baseline 50).calculate_surplus 40 =
      (0, false) ∧
    (BaselineDetector.new.set_manual_baseline 50).calculate_surplus_wh 150 1 =
      100 ∧
    (BaselineDetector.new.set_manual_baseline 50).calculate_surplus_wh 40 1 =
      0 := by
  have hmain : ∀ q : ℚ, d.calculate_surplus q =
      (max 0 (q - b), decide (q > b)) := by
    intro q
    simp only [BaselineDetector.calculate_surplus, hb, Prod.mk.injEq]
    constructor
    · exact max_comm _ _
    · exact decide_eq_decide.mpr sub_pos
  have hex : ∀ q r : ℚ, ∀ u : Bool,
      (max (q - 50) 0 = r ∧ decide (q - 50 > 0) = u) →
      (BaselineDetector.new.set_manual_baseline 50).calculate_surplus q =
        (r, u) := by
    intro q r u hru
    simp only [BaselineDetector.calculate_surplus,
      BaselineDetector.get_baseline, BaselineDetector.set_manual_baseline,
      BaselineDetector.new, Option.or, Prod.mk.injEq]
    exact hru
  have h120 := hex 120 70 true (by norm_num [max_eq_left])
  have h40 := hex 40 0 false (by norm_num [max_eq_right])
  have h150 := hex 150 100 true (by norm_num [max_eq_left])
  refine ⟨hmain current, ?_, h120, h40, ?_, ?_⟩
  · intro p h
    simp [BaselineDetector.calculate_surplus_wh, hmain p]
  · simp [BaselineDetector.calculate_surplus_wh, h150]
  · simp [BaselineDetector.calculate_surplus_wh, h40]

/-- Closed instance of `calculate_surplus_spec` at baseline 50,
current 120. -/
theorem calculate_surplus_spec_witness :
    (BaselineDetector.new.set_manual_baseline 50).get_baseline = some 50 ∧
      (BaselineDetector.new.set_manual_baseline 50).calculate_surplus 120 =
        (max 0 (120 - 50), decide ((120 : ℚ) > 50)) :=
  ⟨by decide,
    (calculate_surplus_spec (BaselineDetector.new.set_manual_baseline 50)
      50 120 (by decide)).1⟩

/-- C6: the TTL-cache getter answers `some value` exactly when the elapsed
time since capture is strictly below `max_age`, and the 500 ms TTL example
hits at 400 ms and misses at 600 ms. -/
theorem cached_value_get_spec {α : Type} (c : CachedValue α)
    (now max_age_ms : ℕ) :
    (c.get now max_age_ms = some c.value ↔ now - c.timestamp < max_age_ms) ∧
    (c.get now max_age_ms = none ↔ ¬ now - c.timestamp < max_age_ms) ∧
    (CachedValue.mk (42 : ℚ) 0).get 400 500 = some 42 ∧
    (CachedValue.mk (42 : ℚ) 0).get 600 500 = none := by
  refine ⟨?_, ?_, by decide, by decide⟩ <;>
    · unfold CachedValue.get
      by_cases h : now - c.timestamp < max_age_ms <;> simp [h]

/-- C7: the pure estimation backend cannot fail — both capability methods
always return `Ok`. -/
theorem estimation_monitor_never_fails (m : EstimationMonitor) (now : ℤ) :
    (∃ p, m.get_power_watts = Except.ok p) ∧
    (∃ r, m.get_reading now = Except.ok r) :=
  ⟨⟨_, rfl⟩, ⟨_, rfl⟩⟩

/-- C8: `reset` clears the window and the last detected value but leaves a
manual override in place, and the manual value wins in `get_baseline` both
before and after `reset`, over any auto-detected value. -/
theorem reset_keeps_manual_baseline (d : BaselineDetector) (m : ℚ)
    (hm : d.manual_baseline = some m) :
    d.get_baseline = some m ∧
    d.reset.get_baseline = some m ∧
    d.reset.samples = [] ∧
    d.reset.last_detected = none ∧
    d.reset.manual_baseline = d.manual_baseline := by
  refine ⟨?_, ?_, rfl, rfl, rfl⟩ <;>
    simp [BaselineDetector.get_baseline, BaselineDetector.reset, hm]

/-- Closed instance of `reset_keeps_manual_baseline`: a detector with a
manual baseline of 50 and an auto-detected value of 44. -/
theorem reset_keeps_manual_baseline_witness :
    ({ samples := [44], max_samples := 60, manual_baseline := some 50,
       last_detected := some 44 } : BaselineDetector).manual_baseline =
        some 50 ∧
    ({ samples := [44], max_samples := 60, manual_baseline := some 50,
       last_detected := some 44 } : BaselineDetector).reset.get_baseline =
        some 50 :=
  ⟨rfl,
    (reset_keeps_manual_baseline
      { samples := [44], max_samples := 60, manual_baseline := some 50,
        last_detected := some 44 } 50 rfl).2.1⟩

/-- C10: with no manual override and no detected baseline,
`calculate_surplus` is constantly `(0, false)` and `calculate_surplus_wh`
is constantly `0`. -/
theorem surplus_without_baseline (d : BaselineDetector)
    (h1 : d.manual_baseline = none) (h2 : d.last_detected = none)
    (current p h : ℚ) :
    d.calculate_surplus current = (0, false) ∧
    d.calculate_surplus_wh p h = 0 := by
  have hb : d.get_baseline = none := by
    simp [BaselineDetector.get_baseline, h1, h2]
  constructor
  · simp [BaselineDetector.calculate_surplus, hb]
  · simp [BaselineDetector.calculate_surplus_wh,
      BaselineDetector.calculate_surplus, hb]

/-- Closed instance of `surplus_without_baseline` on a fresh detector. -/
theorem surplus_without_baseline_witness :
    BaselineDetector.new.calculate_surplus 123 = (0, false) ∧
      BaselineDetector.new.calculate_surplus_wh 123 2 = 0 :=
  surplus_without_baseline BaselineDetector.new rfl rfl 123 123 2

/-- On an all-idle machine (every core at load 0) the estimate is exactly
the idle power. -/
lemma calculate_estimated_power_zero (idle_power max_power : ℚ) (n : ℕ)
    (hn : n ≠ 0) (h : idle_power ≤ max_power) :
    calculate_estimated_power idle_power max_power (List.replicate n 0) =
      idle_power := by
  unfold calculate_estimated_power
  rw [if_neg (by simp [List.isEmpty_iff, hn])]
  simp only [List.sum_replicate, List.length_replicate, smul_zero,
    List.filter_replicate]
  rw [if_neg (by norm_num)]
  simp only [List.length_nil, Nat.cast_zero, zero_div, mul_zero, add_zero,
    mul_comm, zero_mul, zero_div]
  have h0 : fclamp 0 0 1 = 0 := by norm_num [fclamp]
  rw [h0, mul_zero, add_zero]
  unfold fclamp
  rw [if_neg (lt_irrefl _), if_neg (by exact not_lt.mpr h)]

/-- On a fully loaded machine (every core at load 1) the estimate is
exactly the max power. -/
lemma calculate_estimated_power_one (idle_power max_power : ℚ) (n : ℕ)
    (hn : n ≠ 0) (h : idle_power ≤ max_power) :
    calculate_estimated_power idle_power max_power (List.replicate n 1) =
      max_power := by
  have hq : (n : ℚ) ≠ 0 := Nat.cast_ne_zero.mpr hn
  unfold calculate_estimated_power
  rw [if_neg (by simp [List.isEmpty_iff, hn])]
  simp only [List.sum_replicate, List.length_replicate, smul_eq_mul,
    mul_one, List.filter_replicate]
  rw [if_pos (by norm_num)]
  simp only [List.length_replicate, nsmul_eq_mul, mul_one]
  rw [div_self hq]
  have h1 : fclamp (1 * (7 / 10 + 3 / 10 * 1)) 0 1 = 1 := by
    norm_num [fclamp]
  rw [h1, one_mul,
    show idle_power + (max_power - idle_power) = max_power from by ring]
  unfold fclamp
  rw [if_neg (by exact not_lt.mpr h), if_neg (lt_irrefl _)]

/-- The TDP profile of the documented scenario:
`tdp=65, idle_ratio=0.12, max_power_ratio=1.4` (the Intel i3 / Ryzen 5
desktop profile of `get_tdp_profile`, estimator.rs:90/102). -/
def demoProfile : TdpProfile := TdpProfile.mk' 65 (12/100) (14/10)

/-- An estimation monitor carrying `demoProfile`, no overrides, and the
given per-core loads. -/
def demoMonitor (loads : List ℚ) : EstimationMonitor :=
  { profile := demoProfile, is_laptop := false,
    idle_power_override := none, max_power_override := none,
    loads := loads }

/-- C2: the TDP estimator clamps every estimate into
`[idle_power, max_power]`, and for the profile `tdp=65, idle_ratio=0.12,
max_power_ratio=1.4` the derived powers are `7.8` and `91.0`, reached at
zero load and at full load on all cores respectively. -/
theorem estimated_power_spec (m : EstimationMonitor)
    (hm : m.get_idle_power ≤ m.get_max_power) :
    (m.get_power_watts = Except.ok m.calcPower ∧
      m.get_idle_power ≤ m.calcPower ∧ m.calcPower ≤ m.get_max_power) ∧
    demoProfile.idle_power = 78/10 ∧
    demoProfile.max_power = 91 ∧
    (demoMonitor (List.replicate 4 0)).calcPower = 78/10 ∧
    (demoMonitor (List.replicate 4 1)).calcPower = 91 := by
  have hidle : demoProfile.idle_power = 78/10 := by
    norm_num [demoProfile, TdpProfile.mk', TdpProfile.idle_power]
  have hmax : demoProfile.max_power = 91 := by
    norm_num [demoProfile, TdpProfile.mk', TdpProfile.max_power]
  have hdm : ∀ loads, (demoMonitor loads).get_idle_power = 78/10 ∧
      (demoMonitor loads).get_max_power = 91 := by
    intro loads
    constructor
    · rw [show (demoMonitor loads).get_idle_power = demoProfile.idle_power
        from rfl, hidle]
    · rw [show (demoMonitor loads).get_max_power = demoProfile.max_power
        from rfl, hmax]
  refine ⟨⟨rfl, calculate_estimated_power_mem _ _ m.loads hm⟩,
    hidle, hmax, ?_, ?_⟩
  · show calculate_estimated_power (demoMonitor _).get_idle_power
      (demoMonitor _).get_max_power (List.replicate 4 0) = 78/10
    rw [(hdm _).1, (hdm _).2]
    exact calculate_estimated_power_zero _ _ 4 (by norm_num) (by norm_num)
  · show calculate_estimated_power (demoMonitor _).get_idle_power
      (demoMonitor _).get_max_power (List.replicate 4 1) = 91
    rw [(hdm _).1, (hdm _).2]
    exact calculate_estimated_power_one _ _ 4 (by norm_num) (by norm_num)

/-- Closed instance of `estimated_power_spec` on the scenario monitor with
all cores idle. -/
theorem estimated_power_spec_witness :
    (demoMonitor (List.replicate 4 0)).get_idle_power ≤
        (demoMonitor (List.replicate 4 0)).get_max_power ∧
      (demoMonitor (List.replicate 4 0)).get_idle_power ≤
        (demoMonitor (List.replicate 4 0)).calcPower ∧
      (demoMonitor (List.replicate 4 0)).calcPower = 78/10 :=
  have hle : (demoMonitor (List.replicate 4 0)).get_idle_power ≤
      (demoMonitor (List.replicate 4 0)).get_max_power := by
    norm_num [demoMonitor, demoProfile, EstimationMonitor.get_idle_power,
      EstimationMonitor.get_max_power, TdpProfile.mk', TdpProfile.idle_power,
      TdpProfile.max_power, Option.getD]
  ⟨hle, (estimated_power_spec (demoMonitor (List.replicate 4 0)) hle).1.2.1,
    (estimated_power_spec (demoMonitor (List.replicate 4 0)) hle).2.2.2.1⟩

/-- C9 counterexample: with a configured capacity of `0`, a single
`add_sample` leaves the window holding one sample, strictly more than the
configured capacity. -/
theorem add_sample_capacity_zero :
    ((BaselineDetector.with_window_size 0).add_sample 1).sample_count = 1 ∧
      (BaselineDetector.with_window_size 0).max_samples = 0 := by
  constructor <;> rfl

/-- C9 (amended): for a configured capacity of at least 1, after any
sequence of `add_sample` calls on a fresh detector the window holds the
last `min capacity n` samples in order — in particular at most `capacity`
of them — and an `add_sample` on a window exactly at capacity evicts the
oldest entry. -/
theorem add_sample_ring_buffer (cap : ℕ) (hcap : 1 ≤ cap) (ws : List ℚ)
    (d : BaselineDetector) (w : ℚ) :
    (ws.foldl BaselineDetector.add_sample
        (BaselineDetector.with_window_size cap)).samples =
      ws.drop (ws.length - cap) ∧
    (ws.foldl BaselineDetector.add_sample
        (BaselineDetector.with_window_size cap)).sample_count ≤ cap ∧
    (d.sample_count = d.max_samples →
      (d.add_sample w).samples = d.samples.tail ++ [w]) := by
  refine ⟨foldl_add_sample_samples cap hcap ws, ?_, ?_⟩
  · show (ws.foldl BaselineDetector.add_sample
        (BaselineDetector.with_window_size cap)).samples.length ≤ cap
    rw [foldl_add_sample_samples cap hcap ws, List.length_drop]
    omega
  · intro h
    have h' : d.samples.length ≥ d.max_samples := le_of_eq h.symm
    unfold BaselineDetector.add_sample
    rw [if_pos h']

/-- Closed instance of `add_sample_ring_buffer`: capacity 2, three
samples fed, plus one eviction step on a full window. -/
theorem add_sample_ring_buffer_witness :
    (([1, 2, 3] : List ℚ).foldl BaselineDetector.add_sample
        (BaselineDetector.with_window_size 2)).samples =
      ([1, 2, 3] : List ℚ).drop (([1, 2, 3] : List ℚ).length - 2) ∧
    (({ samples := [1, 2], max_samples := 2, manual_baseline := none,
        last_detected := none } : BaselineDetector).add_sample 5).samples =
      ([1, 2] : List ℚ).tail ++ [5] :=
  ⟨(add_sample_ring_buffer 2 (by norm_num) [1, 2, 3]
      BaselineDetector.new 0).1,
    (add_sample_ring_buffer 2 (by norm_num) []
      { samples := [1, 2], max_samples := 2, manual_baseline := none,
        last_detected := none } 5).2.2 rfl⟩

/-- C5 counterexample: the Linux monitor's fast path performs live GPU
queries.  The `LinuxSystemMonitor` holds no GPU cache at all, so "no GPU
data is cached" holds in every one of its states; yet when NVML answers,
the fast path returns `Some` GPU usage and power obtained directly from the
query — not `None`, and not from any TTL cache. -/
theorem linux_fast_path_live_query :
    LinuxSystemMonitor.get_power_watts_fast (Except.ok 10) [50]
        (some { query_metrics :=
                  some { name := "gpu0", usage_percent := some 55,
                         power_watts := some 30 },
                query_power := some (30, "gpu0") }) none =
      Except.ok (10, 50, some 55, some 30) := by
  show Except.ok (10, ([(50 : ℚ)].sum / (max 1 1 : ℕ) : ℚ), some 55, some 30)
      = Except.ok (10, 50, some 55, some 30)
  norm_num

/-- C5 (amended): the claim holds of the Windows monitor
(`WmiMonitor::get_power_watts_fast_impl`): its GPU usage and power come
only from the two TTL caches read with the 10 s fast-path tolerance, and
whenever each cache is absent or expired the call still returns `Ok` with
both GPU fields `None`.  The Linux fast path, by contrast, queries
NVML/sysfs live on every call (see the counterexample). -/
theorem wmi_fast_path_cache_only (cpu_tdp : ℚ) (is_laptop : Bool) (load : ℚ)
    (gmc : Option (CachedValue (Option GpuMetrics)))
    (gc : Option (CachedValue (Option GpuInfo))) (now : ℕ)
    (hgmc : ∀ c, gmc = some c →
      WmiMonitor.FAST_PATH_CACHE_TTL_MS ≤ now - c.timestamp)
    (hgc : ∀ c, gc = some c →
      WmiMonitor.FAST_PATH_CACHE_TTL_MS ≤ now - c.timestamp) :
    WmiMonitor.get_power_watts_fast_impl cpu_tdp is_laptop load gmc gc now =
      Except.ok (WmiMonitor.calculate_cpu_power cpu_tdp load +
        WmiMonitor.estimate_base_power is_laptop, load, none, none) := by
  have hcached : WmiMonitor.get_cached_gpu_data_for_fast_path gmc gc now =
      (none, none) := by
    unfold WmiMonitor.get_cached_gpu_data_for_fast_path
    have h1 : ∀ c : CachedValue (Option GpuMetrics), gmc = some c →
        c.get now WmiMonitor.FAST_PATH_CACHE_TTL_MS = none := by
      intro c hc
      unfold CachedValue.get
      rw [if_neg (not_lt.mpr (hgmc c hc))]
    have h2 : ∀ c : CachedValue (Option GpuInfo), gc = some c →
        c.get now WmiMonitor.FAST_PATH_CACHE_TTL_MS = none := by
      intro c hc
      unfold CachedValue.get
      rw [if_neg (not_lt.mpr (hgc c hc))]
    cases gmc with
    | none =>
        cases gc with
        | none => rfl
        | some c => simp only [h2 c rfl]
    | some c =>
        cases gc with
        | none => simp only [h1 c rfl]
        | some c' => simp only [h1 c rfl, h2 c' rfl]
  unfold WmiMonitor.get_power_watts_fast_impl
  rw [hcached]

/-- Closed instance of `wmi_fast_path_cache_only`: an expired GPU-metrics
cache entry and an absent GPU-power cache. -/
theorem wmi_fast_path_cache_only_witness :
    WmiMonitor.get_power_watts_fast_impl 28 true 10
        (some { value := some { name := "gpu0", usage_percent := some 50,
                                power_watts := some 20 },
                timestamp := 0 })
        none 20000 =
      Except.ok (WmiMonitor.calculate_cpu_power 28 10 +
        WmiMonitor.estimate_base_power true, 10, none, none) :=
  wmi_fast_path_cache_only 28 true 10 _ none 20000
    (by intro c hc; injection hc with hceq; rw [← hceq]; norm_num
        [WmiMonitor.FAST_PATH_CACHE_TTL_MS])
    (by intro c hc; cases hc)

/-- C3: `detect_baseline` needs at least 10 samples; with `n ≥ 10` it
returns the entry at index `⌊n * 0.05⌋` of the sorted window together with
`confidence = (n / capacity) * (1 / (1 + stddev/100))` clamped to `[0,1]`,
where the standard deviation is that of the window (computed on the sorted
copy, equal by permutation invariance); and every 20-sample window with 10
values in `[40,50]` and 10 in `[100,150]` yields `detected_watts < 60`. -/
theorem detect_baseline_spec (sqrtFn : ℚ → ℚ) (cap : ℕ) (samples : List ℚ)
    (h10 : 10 ≤ samples.length) :
    (∀ s : List ℚ, s.length < 10 →
      BaselineDetector.detect_baseline sqrtFn s cap = none) ∧
    BaselineDetector.detect_baseline sqrtFn samples cap =
      some { detected_watts :=
               ((samples.insertionSort (· ≤ ·))[
                  (((samples.length : ℚ)) * (5/100)).floor.toNat]?).getD
                 ((samples.insertionSort (· ≤ ·)).headD 0),
             sample_count := samples.length,
             confidence := fclamp (((samples.length : ℚ) / (cap : ℚ)) *
               (1 / (1 + BaselineDetector.calculate_variance sqrtFn samples
                   / 100))) 0 1 } ∧
    (samples.length = 20 →
      samples.countP (fun x => decide (40 ≤ x ∧ x ≤ 50)) = 10 →
      samples.countP (fun x => decide (100 ≤ x ∧ x ≤ 150)) = 10 →
      ∃ r, BaselineDetector.detect_baseline sqrtFn samples cap = some r ∧
        r.detected_watts < 60) := by
  have hperm : (samples.insertionSort (· ≤ ·)).Perm samples :=
    List.perm_insertionSort _ samples
  have hlen : (samples.insertionSort (· ≤ ·)).length = samples.length :=
    hperm.length_eq
  have hvar := calculate_variance_perm sqrtFn hperm
  have hmid : BaselineDetector.detect_baseline sqrtFn samples cap =
      some { detected_watts :=
               ((samples.insertionSort (· ≤ ·))[
                  (((samples.length : ℚ)) * (5/100)).floor.toNat]?).getD
                 ((samples.insertionSort (· ≤ ·)).headD 0),
             sample_count := samples.length,
             confidence := fclamp (((samples.length : ℚ) / (cap : ℚ)) *
               (1 / (1 + BaselineDetector.calculate_variance sqrtFn samples
                   / 100))) 0 1 } := by
    simp only [BaselineDetector.detect_baseline,
      BaselineDetector.BASELINE_PERCENTILE]
    rw [if_neg (by omega), hlen, hvar]
  refine ⟨?_, hmid, ?_⟩
  · intro s hs
    simp only [BaselineDetector.detect_baseline]
    rw [if_pos hs]
  · intro h20 hc40 hc100
    refine ⟨_, hmid, ?_⟩
    show ((samples.insertionSort (· ≤ ·))[
        (((samples.length : ℚ)) * (5/100)).floor.toNat]?).getD
        ((samples.insertionSort (· ≤ ·)).headD 0) < 60
    have hidx : (((samples.length : ℚ)) * (5/100)).floor.toNat = 1 := by
      rw [h20, show ((20 : ℕ) : ℚ) * (5/100) = 1 by norm_num]
      decide
    have h1lt : 1 < (samples.insertionSort (· ≤ ·)).length := by omega
    rw [hidx, List.getElem?_eq_getElem h1lt, Option.getD_some]
    have hs : List.Sorted (· ≤ ·) (samples.insertionSort (· ≤ ·)) :=
      List.sorted_insertionSort _ samples
    have hcnt : 1 < (samples.insertionSort (· ≤ ·)).countP
        (fun x => decide (x ≤ 50)) := by
      rw [List.Perm.countP_eq _ hperm]
      have hmono : samples.countP (fun x => decide (40 ≤ x ∧ x ≤ 50)) ≤
          samples.countP (fun x => decide (x ≤ 50)) := by
        apply List.countP_mono_left
        intro x hx hpx
        simp only [decide_eq_true_eq] at hpx ⊢
        exact hpx.2
      omega
    have hget := sorted_get_le_of_lt_countP hs 1 h1lt hcnt
    rw [List.get_eq_getElem] at hget
    exact lt_of_le_of_lt hget (by norm_num)

/-- Closed instance of `detect_baseline_spec` on a 20-sample window with
10 idle values in `[40,50]` and 10 loaded values in `[100,150]`. -/
theorem detect_baseline_spec_witness :
    10 ≤ ([45, 46, 47, 48, 49, 45, 46, 47, 48, 49, 100, 105, 110, 115,
      120, 125, 130, 135, 140, 145] : List ℚ).length ∧
    ∃ r, BaselineDetector.detect_baseline id
        ([45, 46, 47, 48, 49, 45, 46, 47, 48, 49, 100, 105, 110, 115,
          120, 125, 130, 135, 140, 145] : List ℚ) 60 = some r ∧
      r.detected_watts < 60 :=
  ⟨by decide,
    (detect_baseline_spec id 60
      ([45, 46, 47, 48, 49, 45, 46, 47, 48, 49, 100, 105, 110, 115,
        120, 125, 130, 135, 140, 145] : List ℚ) (by decide)).2.2
      (by decide) (by decide) (by decide)⟩

end PowerCost
